import Mathlib

/-!
Shallow embedding of the gigago GigaChat client library (Go) and proofs about
its credential-lifecycle core: the freshness policy (`isValid`), the token
source (`oauthCreate`), client construction (`NewClient`), the background
refresh loop (`tokenRefresher`, modelled as a step function over an event
trace), the token store (a reader/writer-lock guarded cell, modelled by its
serialized operation semantics), shutdown (`Close`), and the request
dispatcher's 401 retry policy.

Machine integers (Go `int64`) are modelled as `Int`; Go durations
(`time.Duration`) are nanosecond counts, as in Go. Go's integer division
truncates toward zero, which is `Int.tdiv`.
-/

namespace Gigago

/-- The token-exchange response body shape (`tokenResponse` in oauth.go):
a bearer token plus an absolute expiry in Unix milliseconds. -/
structure tokenResponse where
  AccessToken : String
  ExpiresAt : Int
deriving DecidableEq, Repr

/-- Go `15 * time.Minute` in nanoseconds (refresh.go: `tokenRefreshBuffer`). -/
def tokenRefreshBuffer : Int := 15 * 60 * 1000000000

/-- Go `1 * time.Minute` in nanoseconds (refresh.go: `tokenRefreshInterval`). -/
def tokenRefreshInterval : Int := 60 * 1000000000

/-- Go `30 * time.Second` in nanoseconds (refresh.go: `refreshTimeout`). -/
def refreshTimeout : Int := 30 * 1000000000

/-- Go `time.Millisecond` as a nanosecond count. -/
def millisecond : Int := 1000000

/-- Go `now.UnixNano() / int64(time.Millisecond)`: a nanosecond instant
converted to milliseconds with Go's truncating `int64` division. -/
def msOfNano (nowNano : Int) : Int := Int.tdiv nowNano millisecond

/-- refresh.go `(c *Client) isValid(expire_at int64, now time.Time) bool`.
`expire_at` is Unix milliseconds; `now` is the instant, carried here as its
`UnixNano()` value. Returns whether the token expires more than 15 minutes
from `now`. -/
def isValid (expire_at : Int) (nowNano : Int) : Bool :=
  let nowMs := msOfNano nowNano
  let remaining := expire_at - nowMs
  let fifteenMinutesMs := Int.tdiv tokenRefreshBuffer millisecond
  remaining > fifteenMinutesMs

/-- An HTTP response body, abstracting JSON decoding: `wellFormed t raw` is a
body whose raw text `raw` decodes to `t`; `malformed raw` is a body the
decoder rejects. -/
inductive Body where
  | wellFormed (t : tokenResponse) (raw : String)
  | malformed (raw : String)
deriving DecidableEq, Repr

/-- The raw text of a body (what `io.ReadAll(resp.Body)` yields). -/
def Body.raw : Body → String
  | .wellFormed _ r => r
  | .malformed r => r

/-- Outcome of the single HTTP exchange issued by `oauthCreate`: either a
network-level failure (`c.httpClient.Do` returns an error) or a response
with a status code and a body. -/
inductive HttpOutcome where
  | transportFailure (msg : String)
  | response (status : Nat) (body : Body)
deriving DecidableEq, Repr

/-- The error cases of `oauthCreate` (oauth.go): a transport error, a
non-200 status (carrying status and raw body, as in
`fmt.Errorf("unexpected status %d: %s", ...)`), or a JSON decode failure. -/
inductive OauthError where
  | transportFailure (msg : String)
  | badStatus (status : Nat) (body : String)
  | decodeFailure (raw : String)
deriving DecidableEq, Repr

/-- The message text of an `OauthError`, following the `fmt.Errorf` format
strings in oauth.go (a decode failure's message comes from the JSON
decoder; we render the undecodable raw body). -/
def OauthError.message : OauthError → String
  | .transportFailure m => m
  | .badStatus s b => "unexpected status " ++ toString s ++ ": " ++ b
  | .decodeFailure raw => raw

/-- oauth.go `(c *Client) oauthCreate(ctx) (*tokenResponse, error)`,
as a function of the HTTP exchange's outcome: transport errors propagate;
a non-200 status yields the `unexpected status` error; a 200 body is
JSON-decoded into a `tokenResponse` or fails with a decode error. -/
def oauthCreate (r : HttpOutcome) : Except OauthError tokenResponse :=
  match r with
  | .transportFailure m => .error (.transportFailure m)
  | .response status body =>
    if status ≠ 200 then
      .error (.badStatus status body.raw)
    else
      match body with
      | .wellFormed t _ => .ok t
      | .malformed raw => .error (.decodeFailure raw)

/-- The client record (oauth.go `Client`), restricted to the state the
credential lifecycle touches: the stored token (guarded by `mu` in Go),
whether the background refresher goroutine was launched (`wg.Add(1)` +
`go c.tokenRefresher(...)`), whether the refresher's context was derived
from `context.Background()` (oauth.go:
`context.WithCancel(context.Background())`), and whether `ctxCancel` has
been called. -/
structure Client where
  accessToken : tokenResponse
  refresherStarted : Bool
  refresherCtxParentIsBackground : Bool
  ctxCancelCalled : Bool
deriving DecidableEq, Repr

/-- The error cases of `NewClient`: an empty API key, or a wrapped failure
of the initial token fetch (`fmt.Errorf("token fetch failed: %w", err)`). -/
inductive NewClientError where
  | emptyApiKey
  | tokenFetch (e : OauthError)
deriving DecidableEq, Repr

/-- The message text of a `NewClientError`, following oauth.go. -/
def NewClientError.message : NewClientError → String
  | .emptyApiKey => "apiKey cannot be empty"
  | .tokenFetch e => "token fetch failed: " ++ e.message

/-- oauth.go `NewClient(ctx, apiKey, opts...)`, as a function of the API key
and the outcome of the initial token-exchange request. On fetch failure it
returns the wrapped error and no client; on success it stores the token and
launches the background refresher under a fresh context derived from
`context.Background()` (not from the caller's `ctx`). -/
def NewClient (apiKey : String) (r : HttpOutcome) : Except NewClientError Client :=
  if apiKey = "" then
    .error .emptyApiKey
  else
    match oauthCreate r with
    | .error e => .error (.tokenFetch e)
    | .ok access =>
      .ok { accessToken := access
            refresherStarted := true
            refresherCtxParentIsBackground := true
            ctxCancelCalled := false }

/-- Whether a `NewClient` result left a background refresher running:
on the error path `NewClient` returns before `wg.Add(1)` and the
`go c.tokenRefresher(...)` statement, so no task is started. -/
def refresherStartedOf : Except NewClientError Client → Bool
  | .ok c => c.refresherStarted
  | .error _ => false

/-- model.go `GenerativeModel`: generation parameters for one model.
The Go `float64` fields carry only exact constant values here (0 and 1),
so they are modelled as rationals. -/
structure GenerativeModel where
  c : Client
  fullName : String
  SystemInstruction : String
  TopP : ℚ
  Temperature : ℚ
  MaxTokens : Int
  RepetitionPenalty : ℚ
deriving DecidableEq

/-- model.go `(c *Client) GenerativeModel(name string) *GenerativeModel`:
returns a fresh model for `name` with the documented default parameters. -/
def Client.GenerativeModel (c : Client) (name : String) : GenerativeModel :=
  { c := c
    fullName := name
    SystemInstruction := ""
    Temperature := 0
    TopP := 1
    MaxTokens := 999999999
    RepetitionPenalty := 1 }

/-- refresh.go `(c *Client) refreshToken(ctx) error`, in state-passing style
over the token store's contents: fetch a token via `oauthCreate`; on error
the stored token is left unchanged and the error is returned; on success the
new token is written to the store (under the exclusive lock in Go). Returns
the new store contents and the error value. -/
def refreshToken (tok : tokenResponse) (r : HttpOutcome) :
    tokenResponse × Option OauthError :=
  match oauthCreate r with
  | .error e => (tok, some e)
  | .ok t => (t, none)

/-- One event the select loop in refresh.go `tokenRefresher` can observe:
a ticker tick — carrying whether `ctx.Err() != nil` held when the tick was
handled, the current time, and the outcome the token endpoint would return
if called on this tick — or the context's done channel firing. -/
inductive RefresherEvent where
  | tick (ctxErr : Bool) (nowNano : Int) (httpResult : HttpOutcome)
  | ctxDone
deriving DecidableEq, Repr

/-- A refresh request issued by the loop: the timeout of the context it ran
under (`context.WithTimeout(ctx, refreshTimeout)`) and the fetch outcome. -/
structure RefreshCall where
  timeoutNs : Int
  result : Except OauthError tokenResponse
deriving Repr

/-- One iteration of the select loop in refresh.go `tokenRefresher`.
`none` means the loop returned (context done, or `ctx.Err() != nil` observed
on a tick). `some (tok2, call, logged)` means the iteration completed and
the loop continues: `tok2` is the store's contents afterwards, `call` the
refresh request issued on this tick (if the freshness check failed), and
`logged` the error that was logged (if the refresh failed). -/
def tokenRefresherStep (tok : tokenResponse) (ev : RefresherEvent) :
    Option (tokenResponse × Option RefreshCall × Option OauthError) :=
  match ev with
  | .ctxDone => none
  | .tick ctxErr nowNano httpResult =>
    if ctxErr then none
    else
      let shouldRefresh := !(isValid tok.ExpiresAt nowNano)
      if shouldRefresh then
        let fetched := refreshToken tok httpResult
        some (fetched.1, some ⟨refreshTimeout, oauthCreate httpResult⟩, fetched.2)
      else
        some (tok, none, none)

/-- refresh.go `tokenRefresher` over a finite event trace: the final store
contents, whether the loop exited, and the refresh calls it issued. Once an
iteration returns, no later event is processed and no further call is made. -/
def tokenRefresherRun (tok : tokenResponse) :
    List RefresherEvent → tokenResponse × Bool × List RefreshCall
  | [] => (tok, false, [])
  | ev :: rest =>
    match tokenRefresherStep tok ev with
    | none => (tok, true, [])
    | some (tok2, call, _) =>
      let r := tokenRefresherRun tok2 rest
      (r.1, r.2.1, call.toList ++ r.2.2)

/-- The tick schedule of Go's `time.NewTicker(tokenRefreshInterval)` created
at `launchNano`: per `time.Ticker`'s semantics the k-th tick (0-indexed)
fires one full interval after the previous one, the first a full interval
after creation — never at or before creation. -/
def tickTime (launchNano : Int) (k : Nat) : Int :=
  launchNano + ((k : Int) + 1) * tokenRefreshInterval

/-- An operation on the token store (the `mu`-guarded `accessToken` field):
an exclusive replacement (refresh.go `refreshToken` under `mu.Lock`) or a
shared-lock read (e.g. the freshness check under `mu.RLock`). The
reader/writer lock serializes writes against each other and against reads,
so any concurrent execution is equivalent to some sequential interleaving,
which a `List StoreOp` represents. -/
inductive StoreOp where
  | replace (t : tokenResponse)
  | read
deriving DecidableEq, Repr

/-- Sequential semantics of the token store: run the interleaved operations
from current contents `cur`, returning the final contents and the value each
read returned, in order. -/
def runStore (cur : tokenResponse) :
    List StoreOp → tokenResponse × List tokenResponse
  | [] => (cur, [])
  | .replace t :: rest => runStore t rest
  | .read :: rest =>
    ((runStore cur rest).1, cur :: (runStore cur rest).2)

/-- The arguments of the replace operations in an interleaving, in order. -/
def replaceArgs : List StoreOp → List tokenResponse
  | [] => []
  | .replace t :: rest => t :: replaceArgs rest
  | .read :: rest => replaceArgs rest

/-- The three effects of oauth.go `(c *Client) Close()`. -/
inductive CloseAction where
  | cancelCtx
  | wgWait
  | closeIdleConnections
deriving DecidableEq, Repr

/-- oauth.go `(c *Client) Close()` as the ordered list of its effects:
`c.ctxCancel()` (signal cancellation), `c.wg.Wait()` (block until the
refresher goroutine has called `wg.Done` and returned), then
`c.httpClient.CloseIdleConnections()`. -/
def CloseBody : List CloseAction :=
  [.cancelCtx, .wgWait, .closeIdleConnections]

/-- Go context-tree semantics applied to the refresher's context: a context
made by `context.WithCancel(parent)` is done iff its own cancel function was
called or its parent is done; `context.Background()` is never done. In
oauth.go the refresher's context's parent is `context.Background()`, so only
`c.ctxCancel` (called by `Close`) can make it done — the caller's
construction context never enters. -/
def refresherCtxDone (c : Client) (callerCtxCancelled : Bool) : Bool :=
  if c.refresherCtxParentIsBackground then c.ctxCancelCalled
  else callerCtxCancelled || c.ctxCancelCalled

/-- The effect of oauth.go `Close` on the client record: `ctxCancel()` is
called (the wait-group join and connection teardown carry no record state). -/
def Client.close (c : Client) : Client :=
  { c with ctxCancelCalled := true }

/-- Outcome of one attempt of the dispatched API call: success, an HTTP
failure status with its body, or a network-level failure. -/
inductive AttemptResult where
  | success (respBody : String)
  | status (code : Nat) (body : String)
  | transport (msg : String)
deriving DecidableEq, Repr

/-- An error surfaced to the caller by the dispatcher: a failure status, a
transport failure, or a failed forced refresh. -/
inductive DispatchError where
  | status (code : Nat) (body : String)
  | transport (msg : String)
  | refresh (e : OauthError)
deriving DecidableEq, Repr

/-- The value a single attempt surfaces when it is the final one. -/
def attemptOutcome : AttemptResult → Except DispatchError String
  | .success r => .ok r
  | .status c b => .error (.status c b)
  | .transport m => .error (.transport m)

/-- Whether an attempt came back as an authentication rejection (401). -/
def isAuthRejected : AttemptResult → Bool
  | .status 401 _ => true
  | _ => false

/-- What one logical dispatch call did: the surfaced result, how many
endpoint attempts were made, how many forced refreshes were performed, and
the token store's contents afterwards. -/
structure DispatchTrace where
  result : Except DispatchError String
  attempts : Nat
  refreshes : Nat
  finalToken : tokenResponse
deriving Repr

/-- Modelled from the spec: the Request Dispatcher's `send` operation (the
repository's request path with its 401-retry policy is not under src/; only
its tests and the spec describe it). Per spec section 4.5: execute the call
once with the current Credential; on a 401 perform exactly one synchronous
forced refresh through the Token Source, write the result into the Token
Store, and retry the original call once with the new Credential, surfacing
whatever the retry returns; any non-401 first failure is surfaced
immediately with no refresh. `attempt1`/`attempt2` give the remote's
response to the first and second attempt as a function of the credential
attached; `refreshResult` is the Token Source's answer to a forced
refresh. -/
def dispatchSend (tok : tokenResponse)
    (attempt1 attempt2 : tokenResponse → AttemptResult)
    (refreshResult : Except OauthError tokenResponse) : DispatchTrace :=
  let r1 := attempt1 tok
  if isAuthRejected r1 then
    match refreshResult with
    | .error e => ⟨.error (.refresh e), 1, 1, tok⟩
    | .ok tok2 => ⟨attemptOutcome (attempt2 tok2), 2, 1, tok2⟩
  else
    ⟨attemptOutcome r1, 1, 0, tok⟩

end Gigago

namespace Gigago

/-- C1: for every expiry `e` (Unix milliseconds) and instant `t` (Unix
nanoseconds), `isValid e t` is true iff `e` minus `t` converted to
milliseconds strictly exceeds 15 minutes (900000 ms); at exactly 15
minutes it is false. -/
theorem isValid_iff_strict_margin (e t : Int) :
    (isValid e t = true ↔ e - msOfNano t > 15 * 60 * 1000) ∧
    (e - msOfNano t = 15 * 60 * 1000 → isValid e t = false) := by
  have hbuf : Int.tdiv tokenRefreshBuffer millisecond = 15 * 60 * 1000 := by decide
  constructor
  · rw [isValid]
    simp only [hbuf, decide_eq_true_eq]
  · intro h
    rw [isValid]
    simp only [hbuf, h]
    decide

/-- Witness for C1: at the exact 15-minute boundary the token is not fresh. -/
theorem isValid_iff_strict_margin_boundary_witness :
    isValid 900000 0 = false :=
  (isValid_iff_strict_margin 900000 0).2 (by decide)

/-- C10: for every client and model name, `GenerativeModel` initializes the
generation parameters to the fixed defaults: empty system instruction,
temperature 0, top-p 1, max tokens 999999999, repetition penalty 1. -/
theorem generativeModel_defaults (c : Client) (name : String) :
    (c.GenerativeModel name).SystemInstruction = "" ∧
    (c.GenerativeModel name).Temperature = 0 ∧
    (c.GenerativeModel name).TopP = 1 ∧
    (c.GenerativeModel name).MaxTokens = 999999999 ∧
    (c.GenerativeModel name).RepetitionPenalty = 1 :=
  ⟨rfl, rfl, rfl, rfl, rfl⟩

/-- C3: when the initial token fetch returns a non-200 status, `NewClient`
fails with an error that carries and renders the failing status, produces no
client object, and leaves no background refresher started. -/
theorem newClient_non200_construction_fails (apiKey : String) (status : Nat)
    (b : Body) (hk : apiKey ≠ "") (hs : status ≠ 200) :
    NewClient apiKey (.response status b)
      = .error (.tokenFetch (.badStatus status b.raw)) ∧
    (∀ c : Client, NewClient apiKey (.response status b) ≠ .ok c) ∧
    refresherStartedOf (NewClient apiKey (.response status b)) = false ∧
    NewClientError.message (.tokenFetch (.badStatus status b.raw))
      = "token fetch failed: "
          ++ ("unexpected status " ++ toString status ++ ": " ++ b.raw) := by
  have h1 : NewClient apiKey (.response status b)
      = .error (.tokenFetch (.badStatus status b.raw)) := by
    unfold NewClient oauthCreate
    simp [hk, hs]
  refine ⟨h1, ?_, ?_, rfl⟩
  · intro c hc
    rw [h1] at hc
    exact Except.noConfusion hc
  · rw [h1]
    rfl

/-- Witness for C3: a 500 response at construction yields the wrapped
`unexpected status 500` error, no client, and no running refresher. -/
theorem newClient_non200_construction_fails_witness :
    NewClient "testKey" (.response 500 (.malformed "busy"))
      = .error (.tokenFetch (.badStatus 500 "busy")) ∧
    (∀ c : Client,
      NewClient "testKey" (.response 500 (.malformed "busy")) ≠ .ok c) ∧
    refresherStartedOf (NewClient "testKey" (.response 500 (.malformed "busy")))
      = false ∧
    NewClientError.message (.tokenFetch (.badStatus 500 "busy"))
      = "token fetch failed: " ++ ("unexpected status " ++ toString 500 ++ ": " ++ "busy") :=
  newClient_non200_construction_fails "testKey" 500 (.malformed "busy")
    (by decide) (by decide)

/-- C4: a failed refresh is contained: `refreshToken` leaves the stored
token unchanged and returns the error, and a tick whose fetch fails leaves
the loop running (the step yields a continuing state with the previous
token, never an exit), so the next tick is still processed. -/
theorem refresh_failure_contained (tok : tokenResponse)
    (r : HttpOutcome) (e : OauthError) (h : oauthCreate r = .error e) :
    refreshToken tok r = (tok, some e) ∧
    ∀ nowNano : Int, ∃ call logged,
      tokenRefresherStep tok (.tick false nowNano r) = some (tok, call, logged) := by
  have hr : refreshToken tok r = (tok, some e) := by
    unfold refreshToken
    rw [h]
  refine ⟨hr, fun nowNano => ?_⟩
  unfold tokenRefresherStep
  by_cases hv : isValid tok.ExpiresAt nowNano
  · exact ⟨none, none, by simp [hv]⟩
  · exact ⟨some ⟨refreshTimeout, .error e⟩, some e, by simp [hv, hr, h]⟩

/-- Witness for C4: a 500-status fetch on a tick of a long-expired token
leaves the stored token unchanged and the loop alive. -/
theorem refresh_failure_contained_witness :
    refreshToken ⟨"tok", 900000⟩ (.response 500 (.malformed ""))
      = (⟨"tok", 900000⟩, some (.badStatus 500 "")) ∧
    ∀ nowNano : Int, ∃ call logged,
      tokenRefresherStep ⟨"tok", 900000⟩
        (.tick false nowNano (.response 500 (.malformed "")))
        = some (⟨"tok", 900000⟩, call, logged) :=
  refresh_failure_contained ⟨"tok", 900000⟩ (.response 500 (.malformed ""))
    (.badStatus 500 "") rfl

/-- C5: `Close` signals cancellation, then blocks on the wait group until
the refresher goroutine has returned, then releases idle connections — in
that order — and once the loop observes cancellation (its context's done
channel, or `ctx.Err() != nil` on a tick) it exits at once: no subsequent
tick is processed and no further token-endpoint call is issued. -/
theorem close_drains_refresher :
    CloseBody
      = [CloseAction.cancelCtx, CloseAction.wgWait,
         CloseAction.closeIdleConnections] ∧
    (∀ (tok : tokenResponse) (rest : List RefresherEvent),
      tokenRefresherRun tok (.ctxDone :: rest) = (tok, true, [])) ∧
    (∀ (tok : tokenResponse) (nowNano : Int) (r : HttpOutcome)
        (rest : List RefresherEvent),
      tokenRefresherRun tok (.tick true nowNano r :: rest) = (tok, true, [])) :=
  ⟨rfl, fun _ _ => rfl, fun _ _ _ _ => rfl⟩

/-- C6: under the reader/writer lock's serialization, every value a read of
the token store returns is either the initial Credential or the argument of
some completed replace — never any other (torn or corrupted) value. -/
theorem store_read_returns_some_replace (init v : tokenResponse)
    (ops : List StoreOp) (hv : v ∈ (runStore init ops).2) :
    v = init ∨ v ∈ replaceArgs ops := by
  induction ops generalizing init with
  | nil => simp [runStore] at hv
  | cons op rest ih =>
    cases op with
    | replace t =>
      rcases ih t (by simpa [runStore] using hv) with h | h
      · exact Or.inr (by simp [replaceArgs, h])
      · exact Or.inr (by simp [replaceArgs, h])
    | read =>
      rcases List.mem_cons.mp (by simpa [runStore] using hv) with h | h
      · exact Or.inl h
      · rcases ih init h with h2 | h2
        · exact Or.inl h2
        · exact Or.inr (by simpa [replaceArgs] using h2)

/-- Witness for C6: in the interleaving replace-then-read, the read returns
the replaced value, which is indeed the argument of a completed replace. -/
theorem store_read_returns_some_replace_witness :
    tokenResponse.mk "b" 2 = tokenResponse.mk "a" 1 ∨
    tokenResponse.mk "b" 2
      ∈ replaceArgs [.replace (tokenResponse.mk "b" 2), .read] :=
  store_read_returns_some_replace (tokenResponse.mk "a" 1)
    (tokenResponse.mk "b" 2) [.replace (tokenResponse.mk "b" 2), .read]
    (by simp [runStore])

/-- C7: a 200 response with an undecodable body yields a decode error from
`oauthCreate`; at construction `NewClient` propagates it and produces no
client; at background-refresh time the failed tick leaves the loop running
with the token unchanged, so the remaining events are processed exactly as
they would have been without that tick. -/
theorem decode_error_construction_and_background (apiKey raw : String)
    (hk : apiKey ≠ "") (tok : tokenResponse) (nowNano : Int)
    (rest : List RefresherEvent) :
    oauthCreate (.response 200 (.malformed raw))
      = .error (.decodeFailure raw) ∧
    NewClient apiKey (.response 200 (.malformed raw))
      = .error (.tokenFetch (.decodeFailure raw)) ∧
    ∃ calls,
      tokenRefresherRun tok
          (.tick false nowNano (.response 200 (.malformed raw)) :: rest)
        = ((tokenRefresherRun tok rest).1,
           (tokenRefresherRun tok rest).2.1, calls) := by
  refine ⟨rfl, ?_, ?_⟩
  · simp [NewClient, hk, oauthCreate]
  · by_cases hv : isValid tok.ExpiresAt nowNano
    · exact ⟨(tokenRefresherRun tok rest).2.2,
        by simp [tokenRefresherRun, tokenRefresherStep, hv]⟩
    · exact ⟨RefreshCall.mk refreshTimeout (.error (.decodeFailure raw))
          :: (tokenRefresherRun tok rest).2.2,
        by simp [tokenRefresherRun, tokenRefresherStep, hv, refreshToken,
          oauthCreate]⟩

/-- Witness for C7: with an expired token, a malformed-body tick followed by
a context-done event is survived: the second event is still processed. -/
theorem decode_error_construction_and_background_witness :
    oauthCreate (.response 200 (.malformed "bad"))
      = .error (.decodeFailure "bad") ∧
    NewClient "k" (.response 200 (.malformed "bad"))
      = .error (.tokenFetch (.decodeFailure "bad")) ∧
    ∃ calls,
      tokenRefresherRun (tokenResponse.mk "tok" 0)
          (.tick false 0 (.response 200 (.malformed "bad")) :: [.ctxDone])
        = ((tokenRefresherRun (tokenResponse.mk "tok" 0) [.ctxDone]).1,
           (tokenRefresherRun (tokenResponse.mk "tok" 0) [.ctxDone]).2.1,
           calls) :=
  decode_error_construction_and_background "k" "bad" (by decide)
    (tokenResponse.mk "tok" 0) 0 [.ctxDone]

/-- Every refresh call the loop's step issues runs under the fixed refresh
timeout: helper for the schedule theorem. -/
theorem tokenRefresherStep_call_timeout (tok : tokenResponse)
    (ev : RefresherEvent) (tok2 : tokenResponse) (call : RefreshCall)
    (logged : Option OauthError)
    (h : tokenRefresherStep tok ev = some (tok2, some call, logged)) :
    call.timeoutNs = refreshTimeout := by
  cases ev with
  | ctxDone => simp [tokenRefresherStep] at h
  | tick ctxErr nowNano r =>
    cases ctxErr with
    | true => simp [tokenRefresherStep] at h
    | false =>
      by_cases hv : isValid tok.ExpiresAt nowNano
      · simp [tokenRefresherStep, hv] at h
      · simp [tokenRefresherStep, hv] at h
        rw [← h.2.1]

/-- C8: the refresh loop checks freshness only on ticks of the fixed
1-minute ticker — consecutive ticks are one interval apart and the first
fires a full interval after launch, so no check occurs at or before
launch — and every refresh call it issues runs under the 30-second timeout
context. -/
theorem refresh_loop_interval_and_timeout :
    tokenRefreshInterval = 60 * 1000000000 ∧
    refreshTimeout = 30 * 1000000000 ∧
    (∀ (launchNano : Int) (k : Nat),
      tickTime launchNano (k + 1) - tickTime launchNano k
        = tokenRefreshInterval ∧
      launchNano < tickTime launchNano k) ∧
    (∀ (tok : tokenResponse) (evs : List RefresherEvent) (call : RefreshCall),
      call ∈ (tokenRefresherRun tok evs).2.2 →
      call.timeoutNs = refreshTimeout) := by
  refine ⟨rfl, rfl, fun launchNano k => ⟨?_, ?_⟩, fun tok evs => ?_⟩
  · unfold tickTime
    push_cast
    ring
  · unfold tickTime
    have hpos : (0 : Int) < ((k : Int) + 1) * tokenRefreshInterval := by
      have h1 : (0 : Int) < (k : Int) + 1 := by positivity
      have h2 : (0 : Int) < tokenRefreshInterval := by decide
      exact mul_pos h1 h2
    omega
  · induction evs generalizing tok with
    | nil => intro call hmem; simp [tokenRefresherRun] at hmem
    | cons ev rest ih =>
      intro call hmem
      rw [tokenRefresherRun] at hmem
      cases hstep : tokenRefresherStep tok ev with
      | none => rw [hstep] at hmem; simp at hmem
      | some out =>
        rw [hstep] at hmem
        simp at hmem
        rcases hmem with h | h
        · exact tokenRefresherStep_call_timeout tok ev out.1 call out.2.2
            (by rw [hstep, ← h])
        · exact ih out.1 call h

/-- Witness for C8: a concrete expired-token tick issues a refresh call,
and that call's timeout is the 30-second refresh timeout. -/
theorem refresh_loop_interval_and_timeout_witness :
    RefreshCall.timeoutNs
        (RefreshCall.mk refreshTimeout (.error (.badStatus 500 "")))
      = refreshTimeout :=
  refresh_loop_interval_and_timeout.2.2.2 (tokenResponse.mk "tok" 0)
    [.tick false 0 (.response 500 (.malformed ""))]
    (RefreshCall.mk refreshTimeout (.error (.badStatus 500 "")))
    (show _ ∈ [RefreshCall.mk refreshTimeout (.error (.badStatus 500 ""))]
      from List.mem_singleton.mpr rfl)

/-- C9: the refresher's lifetime is independent of the construction
context: `NewClient` derives the refresher's context from
`context.Background()`, so whether that context is done never depends on
the caller's context being cancelled; it is not done when `NewClient`
returns, it is done after `Close` calls the cancel function, and it is done
only if that cancel function was called. -/
theorem refresher_ctx_independent_of_construction_ctx (apiKey : String)
    (r : HttpOutcome) (c : Client) (h : NewClient apiKey r = .ok c) :
    c.refresherCtxParentIsBackground = true ∧
    (∀ callerCtxCancelled : Bool,
      refresherCtxDone c callerCtxCancelled = c.ctxCancelCalled) ∧
    c.ctxCancelCalled = false ∧
    (∀ callerCtxCancelled : Bool,
      refresherCtxDone c.close callerCtxCancelled = true) := by
  have hc : c = Client.mk c.accessToken true true false := by
    by_cases hk : apiKey = ""
    · simp [NewClient, hk] at h
    · unfold NewClient at h
      rw [if_neg hk] at h
      cases hoc : oauthCreate r with
      | error e => rw [hoc] at h; simp at h
      | ok access =>
        rw [hoc] at h
        simp only [Except.ok.injEq] at h
        rw [← h]
  rw [hc]
  exact ⟨rfl, fun _ => rfl, rfl, fun _ => rfl⟩

/-- Witness for C9: a successfully constructed client's refresher context is
governed solely by its own cancel flag, regardless of the caller's
context. -/
theorem refresher_ctx_independent_witness :
    (Client.mk (tokenResponse.mk "t" 1) true true
        false).refresherCtxParentIsBackground = true ∧
    (∀ callerCtxCancelled : Bool,
      refresherCtxDone (Client.mk (tokenResponse.mk "t" 1) true true false)
          callerCtxCancelled
        = (Client.mk (tokenResponse.mk "t" 1) true true
            false).ctxCancelCalled) ∧
    (Client.mk (tokenResponse.mk "t" 1) true true false).ctxCancelCalled
      = false ∧
    (∀ callerCtxCancelled : Bool,
      refresherCtxDone (Client.mk (tokenResponse.mk "t" 1) true true
          false).close callerCtxCancelled = true) :=
  refresher_ctx_independent_of_construction_ctx "k"
    (.response 200 (.wellFormed (tokenResponse.mk "t" 1) "raw"))
    (Client.mk (tokenResponse.mk "t" 1) true true false) rfl

/-- C2 (spec-modelled dispatcher): every logical dispatch call makes at most
two endpoint attempts and at most one forced refresh; a 401 first attempt
with a successful forced refresh stores the new Credential and retries
exactly once, surfacing the retry's outcome verbatim — success or any
failure, including a second 401; a non-401 first attempt triggers no
refresh and no retry. -/
theorem dispatch_retry_once_law (tok : tokenResponse)
    (attempt1 attempt2 : tokenResponse → AttemptResult)
    (refreshResult : Except OauthError tokenResponse) :
    (dispatchSend tok attempt1 attempt2 refreshResult).attempts ≤ 2 ∧
    (dispatchSend tok attempt1 attempt2 refreshResult).refreshes ≤ 1 ∧
    (∀ tok2, isAuthRejected (attempt1 tok) = true →
      refreshResult = .ok tok2 →
      dispatchSend tok attempt1 attempt2 refreshResult
        = ⟨attemptOutcome (attempt2 tok2), 2, 1, tok2⟩) ∧
    (isAuthRejected (attempt1 tok) = false →
      dispatchSend tok attempt1 attempt2 refreshResult
        = ⟨attemptOutcome (attempt1 tok), 1, 0, tok⟩) := by
  by_cases h1 : isAuthRejected (attempt1 tok)
  · cases refreshResult with
    | error e =>
      refine ⟨?_, ?_, ?_, ?_⟩ <;> simp [dispatchSend, h1]
    | ok tok2 =>
      refine ⟨?_, ?_, ?_, ?_⟩ <;> simp [dispatchSend, h1]
  · refine ⟨?_, ?_, ?_, ?_⟩ <;> simp [dispatchSend, h1]

/-- Witness for C2: a [401, 401] response sequence fails with the second
401 surfaced, after exactly two attempts and exactly one forced refresh
that stored the new Credential. -/
theorem dispatch_retry_once_law_witness :
    dispatchSend (tokenResponse.mk "old" 1)
        (fun _ => .status 401 "denied") (fun _ => .status 401 "denied again")
        (.ok (tokenResponse.mk "new" 5))
      = ⟨.error (.status 401 "denied again"), 2, 1,
         tokenResponse.mk "new" 5⟩ :=
  (dispatch_retry_once_law (tokenResponse.mk "old" 1)
      (fun _ => .status 401 "denied") (fun _ => .status 401 "denied again")
      (.ok (tokenResponse.mk "new" 5))).2.2.1
    (tokenResponse.mk "new" 5) rfl rfl

end Gigago
